import Mathlib

/-!
Shallow embedding of `src/oop_assignment.py`: a base `Device` class with an
encapsulated, clamped battery; a `Smartphone` subclass adding a phone number
and an app list and overriding `use` and `specs`; and an abstract `Vehicle`
with three concrete variants `Car`, `Bike`, `Plane`.

Python integers are modelled as `Int`; Python floor division `//` is
`Int.fdiv`; Python `max`/`min` are `max`/`min` on `Int`.  Strings built with
f-strings are modelled by explicit concatenation.  Method dispatch through a
base-typed reference is modelled with sum types (`DeviceObj`, the `Vehicle`
inductive).
-/

namespace OOP

/-- `class Device`: brand/model identity plus the protected `_battery` field. -/
structure Device where
  brand : String
  model : String
  battery : Int
deriving Repr, DecidableEq

/-- `Device.__init__`: stores brand/model verbatim, clamps the battery into
`[0, 100]` (`max(0, min(100, int(battery_level)))`). -/
def Device.make (brand model : String) (battery_level : Int) : Device :=
  { brand := brand, model := model, battery := max 0 (min 100 battery_level) }

/-- `Device.battery_level` property: read-only view of `_battery`. -/
def Device.battery_level (d : Device) : Int :=
  d.battery

/-- `Device.charge`: `self._battery = max(0, min(100, self._battery + int(amount)))`. -/
def Device.charge (d : Device) (amount : Int) : Device :=
  { d with battery := max 0 (min 100 (d.battery + amount)) }

/-- `Device._drain`: `self._battery = max(0, self._battery - int(amount))`. -/
def Device.drain (d : Device) (amount : Int) : Device :=
  { d with battery := max 0 (d.battery - amount) }

/-- The drain amount computed by `Device.use`: `max(0, minutes // 10)`. -/
def Device.useAmount (minutes : Int) : Int :=
  max 0 (minutes.fdiv 10)

/-- `Device.use`: `drain = max(0, minutes // 10); self._drain(drain)`. -/
def Device.use (d : Device) (minutes : Int) : Device :=
  d.drain (Device.useAmount minutes)

/-- `Device.specs`: `f"{self.brand} {self.model} — Battery: {self.battery_level}%"`. -/
def Device.specs (d : Device) : String :=
  d.brand ++ " " ++ d.model ++ " — Battery: " ++ toString d.battery_level ++ "%"

/-- `class Smartphone(Device)`: inherits the Device fields, adds
`phone_number` and the `apps` list. -/
structure Smartphone extends Device where
  phone_number : String
  apps : List String
deriving Repr, DecidableEq

/-- `Smartphone.__init__`: `super().__init__(brand, model, battery_level)`,
then `self.phone_number = phone_number; self.apps = []`. -/
def Smartphone.make (brand model phone_number : String) (battery_level : Int) :
    Smartphone :=
  { Device.make brand model battery_level with
    phone_number := phone_number, apps := [] }

/-- Inherited `battery_level` property on a Smartphone. -/
def Smartphone.battery_level (s : Smartphone) : Int :=
  s.toDevice.battery_level

/-- Inherited `charge` on a Smartphone (mutates the inherited battery field). -/
def Smartphone.charge (s : Smartphone) (amount : Int) : Smartphone :=
  { s with toDevice := s.toDevice.charge amount }

/-- Inherited `_drain` on a Smartphone. -/
def Smartphone.drain (s : Smartphone) (amount : Int) : Smartphone :=
  { s with toDevice := s.toDevice.drain amount }

/-- `Smartphone.install_app`: if `name not in self.apps`, append it and
`self._drain(1)`; otherwise no state change. -/
def Smartphone.install_app (s : Smartphone) (name : String) : Smartphone :=
  if name ∈ s.apps then s
  else { s.drain 1 with apps := s.apps ++ [name] }

/-- The drain amount computed by `Smartphone.call`: `max(1, minutes)`. -/
def Smartphone.callAmount (minutes : Int) : Int :=
  max 1 minutes

/-- `Smartphone.call`: `drain = max(1, minutes); self._drain(drain)`.
The `number` argument is accepted but unused. -/
def Smartphone.call (s : Smartphone) (_number : String) (minutes : Int) :
    Smartphone :=
  s.drain (Smartphone.callAmount minutes)

/-- The drain amount computed by `Smartphone.use` (override): `max(0, minutes // 5)`. -/
def Smartphone.useAmount (minutes : Int) : Int :=
  max 0 (minutes.fdiv 5)

/-- `Smartphone.use` (override): `drain = max(0, minutes // 5); self._drain(drain)`. -/
def Smartphone.use (s : Smartphone) (minutes : Int) : Smartphone :=
  s.drain (Smartphone.useAmount minutes)

/-- `Smartphone.specs` (override):
`f"{self.brand} {self.model} (📱 {self.phone_number}) — Apps: {app_count}, Battery: {self.battery_level}%"`. -/
def Smartphone.specs (s : Smartphone) : String :=
  s.brand ++ " " ++ s.model ++ " (📱 " ++ s.phone_number ++ ") — Apps: " ++
    toString s.apps.length ++ ", Battery: " ++ toString s.battery_level ++ "%"

/-- A Device-typed reference: at runtime it holds either a plain `Device`
or a `Smartphone` (dynamic dispatch resolves on the runtime alternative). -/
inductive DeviceObj where
  | device : Device → DeviceObj
  | smartphone : Smartphone → DeviceObj
deriving Repr, DecidableEq

/-- Dynamic dispatch of `specs()` on a Device-typed reference. -/
def DeviceObj.specs : DeviceObj → String
  | .device d => d.specs
  | .smartphone s => s.specs

/-- `Device.__str__`: `return self.specs()` — string conversion delegates to
the dynamically dispatched `specs`. -/
def DeviceObj.str (o : DeviceObj) : String :=
  o.specs

/-- The public operations available on a plain `Device`. -/
inductive DeviceOp where
  | charge (amount : Int)
  | use (minutes : Int)
deriving Repr, DecidableEq

/-- One public operation applied to a `Device`. -/
def Device.step (d : Device) : DeviceOp → Device
  | .charge a => d.charge a
  | .use m => d.use m

/-- A finite sequence of public operations applied to a `Device`. -/
def Device.run (d : Device) (ops : List DeviceOp) : Device :=
  ops.foldl Device.step d

/-- The public operations available on a `Smartphone`. -/
inductive PhoneOp where
  | charge (amount : Int)
  | use (minutes : Int)
  | install_app (name : String)
  | call (number : String) (minutes : Int)
deriving Repr, DecidableEq

/-- One public operation applied to a `Smartphone` (with the overridden `use`). -/
def Smartphone.step (s : Smartphone) : PhoneOp → Smartphone
  | .charge a => s.charge a
  | .use m => s.use m
  | .install_app n => s.install_app n
  | .call n m => s.call n m

/-- A finite sequence of public operations applied to a `Smartphone`. -/
def Smartphone.run (s : Smartphone) (ops : List PhoneOp) : Smartphone :=
  ops.foldl Smartphone.step s

/-- The classes of the Vehicle hierarchy as declared in the source:
`class Vehicle(ABC)` and its three subclasses. -/
inductive VehicleClass where
  | vehicle
  | car
  | bike
  | plane
deriving Repr, DecidableEq

/-- The `move` implementation each class supplies.  `Vehicle.move` is declared
`@abstractmethod` and its body only raises `NotImplementedError`, so the base
class supplies no usable implementation; each subclass returns its own
constant string. -/
def VehicleClass.moveImpl : VehicleClass → Option String
  | .vehicle => none
  | .car => some "Driving 🚗"
  | .bike => some "Riding 🚲"
  | .plane => some "Flying ✈️"

/-- A constructed vehicle instance: only the concrete variants exist as
values, since the abstract base cannot be instantiated. -/
inductive Vehicle where
  | car
  | bike
  | plane
deriving Repr, DecidableEq

/-- Dynamic dispatch of `move()` on a constructed instance: the override of
the runtime class runs. -/
def Vehicle.move : Vehicle → String
  | .car => "Driving 🚗"
  | .bike => "Riding 🚲"
  | .plane => "Flying ✈️"

/-- The runtime class of a constructed instance (`v.__class__`). -/
def Vehicle.cls : Vehicle → VehicleClass
  | .car => .car
  | .bike => .bike
  | .plane => .plane

/-- Instantiation under the ABC machinery: `Vehicle()` raises `TypeError` at
construction time because `move` is abstract; each concrete class constructs
successfully. -/
def VehicleClass.instantiate : VehicleClass → Except String Vehicle
  | .vehicle => .error "TypeError: cannot instantiate abstract class Vehicle"
  | .car => .ok .car
  | .bike => .ok .bike
  | .plane => .ok .plane

/-! ## Helper lemmas -/

lemma Device.useAmount_nonneg (m : Int) : 0 ≤ Device.useAmount m :=
  le_max_left 0 _

lemma Smartphone.phone_useAmount_nonneg (m : Int) : 0 ≤ Smartphone.useAmount m :=
  le_max_left 0 _

lemma Smartphone.callAmount_pos (m : Int) : 1 ≤ Smartphone.callAmount m :=
  le_max_left 1 _

lemma Device.step_battery_mem (d : Device) (op : DeviceOp)
    (h0 : 0 ≤ d.battery) (h1 : d.battery ≤ 100) :
    0 ≤ (d.step op).battery ∧ (d.step op).battery ≤ 100 := by
  cases op with
  | charge a =>
    simp only [Device.step, Device.charge]
    omega
  | use m =>
    have hnn := Device.useAmount_nonneg m
    simp only [Device.step, Device.use, Device.drain]
    omega

lemma Device.run_cons (d : Device) (op : DeviceOp) (ops : List DeviceOp) :
    d.run (op :: ops) = (d.step op).run ops :=
  rfl

lemma Device.run_battery_mem (d : Device) (ops : List DeviceOp)
    (h0 : 0 ≤ d.battery) (h1 : d.battery ≤ 100) :
    0 ≤ (d.run ops).battery ∧ (d.run ops).battery ≤ 100 := by
  induction ops generalizing d with
  | nil => exact ⟨h0, h1⟩
  | cons op ops ih =>
    rw [Device.run_cons]
    have h := Device.step_battery_mem d op h0 h1
    exact ih (d.step op) h.1 h.2

lemma Smartphone.phone_step_battery_mem (s : Smartphone) (op : PhoneOp)
    (h0 : 0 ≤ s.battery) (h1 : s.battery ≤ 100) :
    0 ≤ (s.step op).battery ∧ (s.step op).battery ≤ 100 := by
  cases op with
  | charge a =>
    simp only [Smartphone.step, Smartphone.charge, Device.charge]
    omega
  | use m =>
    have hnn := Smartphone.phone_useAmount_nonneg m
    simp only [Smartphone.step, Smartphone.use, Smartphone.drain, Device.drain]
    omega
  | install_app n =>
    by_cases hmem : n ∈ s.apps <;>
      simp only [Smartphone.step, Smartphone.install_app, hmem, if_pos, if_neg,
        not_false_eq_true, Smartphone.drain, Device.drain] <;>
      omega
  | call n m =>
    have hp := Smartphone.callAmount_pos m
    simp only [Smartphone.step, Smartphone.call, Smartphone.drain, Device.drain]
    omega

lemma Smartphone.phone_run_cons (s : Smartphone) (op : PhoneOp) (ops : List PhoneOp) :
    s.run (op :: ops) = (s.step op).run ops :=
  rfl

lemma Smartphone.phone_run_battery_mem (s : Smartphone) (ops : List PhoneOp)
    (h0 : 0 ≤ s.battery) (h1 : s.battery ≤ 100) :
    0 ≤ (s.run ops).battery ∧ (s.run ops).battery ≤ 100 := by
  induction ops generalizing s with
  | nil => exact ⟨h0, h1⟩
  | cons op ops ih =>
    rw [Smartphone.phone_run_cons]
    have h := Smartphone.phone_step_battery_mem s op h0 h1
    exact ih (s.step op) h.1 h.2

/-! ## Claim theorems -/

/-- C1: for every Device or Smartphone built by the constructor from an
arbitrary integer battery argument, and every finite sequence of public
operations (charge, use, install_app, call with arbitrary integer and string
arguments), the value returned by `battery_level` stays in the closed
interval [0, 100]; the operations are total functions (out-of-range inputs
are silently clamped, never rejected). -/
theorem c1_battery_always_in_range (brand model phone : String) (b : Int)
    (dops : List DeviceOp) (pops : List PhoneOp) :
    (0 ≤ ((Device.make brand model b).run dops).battery_level ∧
      ((Device.make brand model b).run dops).battery_level ≤ 100) ∧
    (0 ≤ ((Smartphone.make brand model phone b).run pops).battery_level ∧
      ((Smartphone.make brand model phone b).run pops).battery_level ≤ 100) := by
  have hd0 : 0 ≤ (Device.make brand model b).battery := by
    simp only [Device.make]; omega
  have hd1 : (Device.make brand model b).battery ≤ 100 := by
    simp only [Device.make]; omega
  have hs0 : 0 ≤ (Smartphone.make brand model phone b).battery := hd0
  have hs1 : (Smartphone.make brand model phone b).battery ≤ 100 := hd1
  exact ⟨Device.run_battery_mem _ dops hd0 hd1,
    Smartphone.phone_run_battery_mem _ pops hs0 hs1⟩

/-- C2 counterexample: from battery 100 and duration 5, Smartphone.use drains
1 percent while Device.use drains 0, so the smartphone drain is not twice the
device drain for that duration. -/
theorem c2_twice_drain_counterexample :
    ¬ (100 - ((Smartphone.make "P" "Q" "n" 100).use 5).battery_level =
        2 * (100 - ((Device.make "A" "B" 100).use 5).battery_level)) := by
  decide

/-- C2 (amended): Smartphone.use(minutes) drains `max(0, minutes div 5)`
percent, and for every duration that is a whole multiple of 10 minutes this
drain is exactly twice the drain that Device.use applies for the same
duration (e.g. from battery 100, Device.use(20) drains 2 while
Smartphone.use(20) drains 4); for other durations the drain amounts need not
be in exact ratio 2. -/
theorem c2_use_drain_amended (s : Smartphone) (m k : Int) :
    (s.use m).battery_level = max 0 (s.battery_level - max 0 (m.fdiv 5)) ∧
    Smartphone.useAmount (10 * k) = 2 * Device.useAmount (10 * k) ∧
    100 - ((Smartphone.make "P" "Q" "n" 100).use 20).battery_level = 4 ∧
    100 - ((Device.make "A" "B" 100).use 20).battery_level = 2 := by
  refine ⟨rfl, ?_, by decide, by decide⟩
  have h5 : (10 * k).fdiv 5 = 2 * k := by
    rw [show (10 : Int) * k = 5 * (2 * k) by ring]
    exact Int.mul_fdiv_cancel_left _ (by norm_num)
  have h10 : (10 * k).fdiv 10 = k :=
    Int.mul_fdiv_cancel_left _ (by norm_num)
  simp only [Smartphone.useAmount, Device.useAmount, h5, h10]
  omega

/-- C3: construction stores brand and model verbatim and clamps the battery
argument into [0, 100]; for every integer amount, charge(amount) sets the
battery to clamp(old + amount, 0, 100) and never rejects an out-of-range
input; in particular a negative amount is accepted (no rejection) and
lowers the battery, acting as a drain. -/
theorem c3_construct_charge_clamp (brand model : String) (b a : Int)
    (d : Device) (ha : a < 0) (hd : 0 ≤ d.battery_level) :
    (Device.make brand model b).battery_level = max 0 (min 100 b) ∧
    (Device.make brand model b).brand = brand ∧
    (Device.make brand model b).model = model ∧
    (∀ k : Int, (d.charge k).battery_level =
      max 0 (min 100 (d.battery_level + k))) ∧
    (d.charge a).battery_level ≤ d.battery_level := by
  refine ⟨rfl, rfl, rfl, fun k => rfl, ?_⟩
  simp only [Device.battery_level, Device.charge] at *
  omega

/-- C3 witness: the theorem at battery argument 150, a device at battery 50,
the charge-clamp formula pulled at the positive amount 60 (excess charge
clamps at 100), and the lowering conjunct at amount -7. -/
theorem c3_construct_charge_clamp_witness :
    (Device.make "A" "B" 150).battery_level = max 0 (min 100 150) ∧
    ((Device.make "A" "B" 50).charge 60).battery_level =
      max 0 (min 100 ((Device.make "A" "B" 50).battery_level + 60)) ∧
    ((Device.make "A" "B" 50).charge (-7)).battery_level ≤
      (Device.make "A" "B" 50).battery_level :=
  ⟨(c3_construct_charge_clamp "A" "B" 150 (-7) (Device.make "A" "B" 50)
      (by decide) (by decide)).1,
   (c3_construct_charge_clamp "A" "B" 150 (-7) (Device.make "A" "B" 50)
      (by decide) (by decide)).2.2.2.1 60,
   (c3_construct_charge_clamp "A" "B" 150 (-7) (Device.make "A" "B" 50)
      (by decide) (by decide)).2.2.2.2⟩

/-- C4: Device.use(minutes) drains exactly `max(0, minutes div 10)` percent
(floor-clamped at the battery zero bound); negative minutes yields zero drain
rather than an error; and Device("A","B",50); charge(10); use(25) leaves the
battery at 60 after the charge and 58 after the use. -/
theorem c4_device_use_drain (d : Device) (m : Int)
    (hd : 0 ≤ d.battery_level) (hm : m < 0) :
    (∀ k : Int, (d.use k).battery_level =
      max 0 (d.battery_level - max 0 (k.fdiv 10))) ∧
    Device.useAmount m = 0 ∧
    (d.use m).battery_level = d.battery_level ∧
    ((Device.make "A" "B" 50).charge 10).battery_level = 60 ∧
    (((Device.make "A" "B" 50).charge 10).use 25).battery_level = 58 := by
  have hneg : m.fdiv 10 < 0 := Int.fdiv_neg' hm (by norm_num)
  have hz : Device.useAmount m = 0 := by
    simp only [Device.useAmount]; omega
  refine ⟨fun k => rfl, hz, ?_, by decide, by decide⟩
  simp only [Device.use, Device.drain, Device.battery_level, hz] at *
  omega

/-- C4 witness: the theorem at a device with battery 50 and minutes -3. -/
theorem c4_device_use_drain_witness :
    Device.useAmount (-3) = 0 ∧
    ((Device.make "A" "B" 50).use (-3)).battery_level =
      (Device.make "A" "B" 50).battery_level ∧
    (((Device.make "A" "B" 50).charge 10).use 25).battery_level = 58 :=
  ⟨(c4_device_use_drain (Device.make "A" "B" 50) (-3)
      (by decide) (by decide)).2.1,
   (c4_device_use_drain (Device.make "A" "B" 50) (-3)
      (by decide) (by decide)).2.2.1,
   (c4_device_use_drain (Device.make "A" "B" 50) (-3)
      (by decide) (by decide)).2.2.2.2⟩

/-- C5: install_app(name) appends `name` to the end of the apps list and
drains exactly 1 percent when `name` is absent; when `name` is already
present it changes no state at all; the operation is idempotent, so
installing the same name twice from a fresh smartphone leaves the list at
length 1 and the total drain at exactly 1. -/
theorem c5_install_app (s t : Smartphone) (name : String)
    (h : name ∉ s.apps) (hb : 1 ≤ s.battery_level) (ht : name ∈ t.apps) :
    (s.install_app name).apps = s.apps ++ [name] ∧
    (s.install_app name).battery_level = s.battery_level - 1 ∧
    t.install_app name = t ∧
    (∀ u : Smartphone, (u.install_app name).install_app name =
      u.install_app name) ∧
    (((Smartphone.make "P" "Q" "n" 50).install_app "Maps").install_app
      "Maps").apps.length = 1 ∧
    (((Smartphone.make "P" "Q" "n" 50).install_app "Maps").install_app
      "Maps").battery_level = 49 := by
  refine ⟨?_, ?_, ?_, ?_, by decide, by decide⟩
  · simp [Smartphone.install_app, h]
  · simp only [Smartphone.install_app, h, if_neg, not_false_eq_true,
      Smartphone.drain, Device.drain, Smartphone.battery_level,
      Device.battery_level] at *
    omega
  · simp [Smartphone.install_app, ht]
  · intro u
    by_cases hmem : name ∈ u.apps
    · simp [Smartphone.install_app, hmem]
    · simp [Smartphone.install_app, hmem]

/-- C5 witness: the theorem at a fresh smartphone with battery 50, a
smartphone that already has the app, and the name Maps. -/
theorem c5_install_app_witness :
    ((Smartphone.make "P" "Q" "n" 50).install_app "Maps").apps =
      (Smartphone.make "P" "Q" "n" 50).apps ++ ["Maps"] ∧
    (((Smartphone.make "P" "Q" "n" 50).install_app "Maps").install_app
      "Maps").apps.length = 1 ∧
    (((Smartphone.make "P" "Q" "n" 50).install_app "Maps").install_app
      "Maps").battery_level = 49 :=
  ⟨(c5_install_app (Smartphone.make "P" "Q" "n" 50)
      ((Smartphone.make "P" "Q" "n" 50).install_app "Maps") "Maps"
      (by decide) (by decide) (by decide)).1,
   (c5_install_app (Smartphone.make "P" "Q" "n" 50)
      ((Smartphone.make "P" "Q" "n" 50).install_app "Maps") "Maps"
      (by decide) (by decide) (by decide)).2.2.2.2.1,
   (c5_install_app (Smartphone.make "P" "Q" "n" 50)
      ((Smartphone.make "P" "Q" "n" 50).install_app "Maps") "Maps"
      (by decide) (by decide) (by decide)).2.2.2.2.2⟩

/-- C6: call(number, minutes) drains exactly `max(1, minutes)` percent
(zero-floored at the battery bound), so from a battery of at least 1 every
call drains at least 1 percent; the number argument is neither stored nor
validated (the result does not depend on it and no field records it); a
smartphone at battery 50 has battery 49 after call("x", 0). -/
theorem c6_call_drain (s : Smartphone) (number other : String) (m : Int)
    (hb : 1 ≤ s.battery_level) :
    (s.call number m).battery_level =
      max 0 (s.battery_level - max 1 m) ∧
    s.call number m = s.call other m ∧
    (s.call number m).phone_number = s.phone_number ∧
    (s.call number m).apps = s.apps ∧
    (s.call number m).battery_level ≤ s.battery_level - 1 ∧
    ((Smartphone.make "P" "Q" "n" 50).call "x" 0).battery_level = 49 := by
  refine ⟨rfl, rfl, rfl, rfl, ?_, by decide⟩
  have hp := Smartphone.callAmount_pos m
  simp only [Smartphone.call, Smartphone.callAmount, Smartphone.drain,
    Device.drain, Smartphone.battery_level, Device.battery_level] at *
  omega

/-- C6 witness: the theorem at a smartphone with battery 50, number x,
alternative number y, and zero minutes. -/
theorem c6_call_drain_witness :
    ((Smartphone.make "P" "Q" "n" 50).call "x" 0).battery_level = 49 ∧
    ((Smartphone.make "P" "Q" "n" 50).call "x" 0).battery_level ≤
      (Smartphone.make "P" "Q" "n" 50).battery_level - 1 ∧
    (Smartphone.make "P" "Q" "n" 50).call "x" 0 =
      (Smartphone.make "P" "Q" "n" 50).call "y" 0 :=
  ⟨(c6_call_drain (Smartphone.make "P" "Q" "n" 50) "x" "y" 0
      (by decide)).2.2.2.2.2,
   (c6_call_drain (Smartphone.make "P" "Q" "n" 50) "x" "y" 0
      (by decide)).2.2.2.2.1,
   (c6_call_drain (Smartphone.make "P" "Q" "n" 50) "x" "y" 0
      (by decide)).2.1⟩

lemma data_space : (" " : String).data = [' '] :=
  rfl

lemma data_phoneOpen : (" (📱 " : String).data = [' ', '(', '📱', ' '] :=
  rfl

lemma data_dashBattery :
    (" — Battery: " : String).data =
      [' ', '—', ' ', 'B', 'a', 't', 't', 'e', 'r', 'y', ':', ' '] :=
  rfl

/-- C7: string conversion returns exactly the value of the dynamically
dispatched specs(); a Smartphone represented through a Device-typed reference
always yields the Smartphone override, whose text contains the phone number
and the installed-app count, and never equals the generic Device-only format
for the same underlying device. -/
theorem c7_str_dispatch (d : Device) (s : Smartphone) :
    DeviceObj.str (.device d) = d.specs ∧
    DeviceObj.str (.smartphone s) = s.specs ∧
    (∃ pre post : List Char,
      pre ++ s.phone_number.data ++ post =
        (DeviceObj.str (.smartphone s)).data) ∧
    (∃ pre post : List Char,
      pre ++ (toString s.apps.length).data ++ post =
        (DeviceObj.str (.smartphone s)).data) ∧
    DeviceObj.str (.smartphone s) ≠ s.toDevice.specs := by
  refine ⟨rfl, rfl, ?_, ?_, ?_⟩
  · refine ⟨(s.brand ++ " " ++ s.model ++ " (📱 ").data,
      (") — Apps: " ++ toString s.apps.length ++ ", Battery: " ++
        toString s.battery_level ++ "%").data, ?_⟩
    simp [DeviceObj.str, DeviceObj.specs, Smartphone.specs]
  · refine ⟨(s.brand ++ " " ++ s.model ++ " (📱 " ++ s.phone_number ++
      ") — Apps: ").data,
      (", Battery: " ++ toString s.battery_level ++ "%").data, ?_⟩
    simp [DeviceObj.str, DeviceObj.specs, Smartphone.specs]
  · intro hcontra
    have h := congrArg String.data hcontra
    simp only [DeviceObj.str, DeviceObj.specs, Smartphone.specs, Device.specs,
      Smartphone.battery_level, Device.battery_level, String.data_append,
      data_space, data_phoneOpen, data_dashBattery, List.append_assoc,
      List.cons_append, List.nil_append] at h
    have h1 := List.append_cancel_left h
    injection h1 with _ h2
    have h3 := List.append_cancel_left h2
    injection h3 with _ h4
    injection h4 with h5 _
    exact absurd h5 (by decide)

/-- C8: Car.move, Bike.move and Plane.move each return a fixed variant
specific string, the three strings are pairwise distinct, and over the
heterogeneous collection [Car, Bike, Plane] the call dispatches to each
runtime variant with no fallback to a shared default. -/
theorem c8_vehicle_moves (v : Vehicle) :
    Vehicle.move .car = "Driving 🚗" ∧
    Vehicle.move .bike = "Riding 🚲" ∧
    Vehicle.move .plane = "Flying ✈️" ∧
    [Vehicle.car, Vehicle.bike, Vehicle.plane].map Vehicle.move =
      ["Driving 🚗", "Riding 🚲", "Flying ✈️"] ∧
    ([Vehicle.car, Vehicle.bike, Vehicle.plane].map Vehicle.move).Pairwise
      (fun x y => x ≠ y) ∧
    VehicleClass.moveImpl v.cls = some v.move := by
  refine ⟨rfl, rfl, rfl, rfl, by decide, ?_⟩
  cases v <;> rfl

/-- C9: Vehicle declares move abstract with no usable default, instantiating
Vehicle itself fails at construction time, and a class is instantiable
exactly when it supplies a move implementation, so every constructed vehicle
value carries a concrete move and the failure is never deferred to the first
call of move. -/
theorem c9_vehicle_abstract (c : VehicleClass) :
    VehicleClass.moveImpl .vehicle = none ∧
    VehicleClass.instantiate .vehicle =
      .error "TypeError: cannot instantiate abstract class Vehicle" ∧
    ((∃ w, VehicleClass.instantiate c = .ok w) ↔
      (∃ str, VehicleClass.moveImpl c = some str)) ∧
    (∀ w : Vehicle, VehicleClass.instantiate w.cls = .ok w ∧
      VehicleClass.moveImpl w.cls = some w.move) := by
  refine ⟨rfl, rfl, ?_, ?_⟩
  · cases c <;> simp [VehicleClass.instantiate, VehicleClass.moveImpl]
  · intro w
    cases w <;> exact ⟨rfl, rfl⟩

/-- C10: the internal drain primitive has no upper clamp at 100: for a
negative amount it strictly increases the battery and can push it above 100;
the public invariant stands because every call site (Device.use,
Smartphone.use, Smartphone.install_app, Smartphone.call) passes a
non-negative amount. -/
theorem c10_drain_unclamped (d : Device) (a : Int)
    (ha : a < 0) (hd : 0 ≤ d.battery_level) :
    d.battery_level < (d.drain a).battery_level ∧
    ((Device.make "B" "M" 100).drain (-1)).battery_level = 101 ∧
    (∀ k : Int, d.use k = d.drain (Device.useAmount k) ∧
      0 ≤ Device.useAmount k) ∧
    (∀ p : Smartphone, ∀ k : Int,
      p.use k = p.drain (Smartphone.useAmount k) ∧
      0 ≤ Smartphone.useAmount k) ∧
    (∀ p : Smartphone, ∀ n : String, ∀ k : Int,
      p.call n k = p.drain (Smartphone.callAmount k) ∧
      0 ≤ Smartphone.callAmount k) ∧
    (∀ p : Smartphone, ∀ n : String,
      p.install_app n = p ∨
      p.install_app n = { p.drain 1 with apps := p.apps ++ [n] }) := by
  refine ⟨?_, by decide, ?_, ?_, ?_, ?_⟩
  · simp only [Device.drain, Device.battery_level] at *
    omega
  · exact fun k => ⟨rfl, Device.useAmount_nonneg k⟩
  · exact fun p k => ⟨rfl, Smartphone.phone_useAmount_nonneg k⟩
  · exact fun p n k =>
      ⟨rfl, le_trans (by norm_num) (Smartphone.callAmount_pos k)⟩
  · intro p n
    by_cases hmem : n ∈ p.apps
    · left
      simp [Smartphone.install_app, hmem]
    · right
      simp [Smartphone.install_app, hmem]

/-- C10 witness: the theorem at a device with battery 100 and amount -1. -/
theorem c10_drain_unclamped_witness :
    (Device.make "B" "M" 100).battery_level <
      ((Device.make "B" "M" 100).drain (-1)).battery_level ∧
    ((Device.make "B" "M" 100).drain (-1)).battery_level = 101 :=
  ⟨(c10_drain_unclamped (Device.make "B" "M" 100) (-1)
      (by decide) (by decide)).1,
   (c10_drain_unclamped (Device.make "B" "M" 100) (-1)
      (by decide) (by decide)).2.1⟩

end OOP
